import Mathlib

/-!
Verification of the Challenge Lifecycle and Escrow Settlement Engine of the
gametribe-backend repository. The definitions below are a shallow embedding of
controllers/challengeControllerV2.js: the Firebase realtime database is modelled
as an explicit state (users with wallets, betting challenges, game sessions and
the per-user/per-status challenge index), and each HTTP handler becomes a pure
function from a state and the request parameters to an updated state and a
result. Timestamps (Date.now()) and the randomly generated identifiers
(challenge ids, session tokens) are passed in as explicit arguments. Writes
that the handler performs against the store can be made to fail through
explicit boolean oracles, mirroring the try/catch structure of the source.
-/

/-- Challenge status values used by the controller. -/
inductive Status where
  | pending
  | accepted
  | rejected
  | cancelled
  | completed
deriving DecidableEq, Repr

/-- A wallet transaction record, as assembled inline by createChallenge and
acceptChallenge (fields id and createdAt, an opaque push key and an ISO
timestamp string in the source, are not modelled). -/
structure Txn where
  amount : Int
  kind : String
  description : String
  balanceBefore : Int
  balanceAfter : Int
  metaChallengeId : String
  metaType : String
deriving DecidableEq, Repr

/-- A user wallet: available amount, escrow balance and the append-only
transaction list stored under users/{uid}/wallet. -/
structure Wallet where
  amount : Int
  escrowBalance : Int
  transactions : List Txn
deriving DecidableEq, Repr

/-- A betting challenge record stored under bettingChallenges/{id}. -/
structure Challenge where
  challengerId : String
  challengedId : String
  gameId : String
  betAmount : Int
  status : Status
  createdAt : Int
  expiresAt : Int
  acceptedAt : Option Int := none
  rejectedAt : Option Int := none
  cancelledAt : Option Int := none
  completedAt : Option Int := none
  challengerScore : Option Int := none
  challengedScore : Option Int := none
  winnerId : Option String := none
deriving DecidableEq, Repr

/-- A game session record stored under gameSessions/{token}. -/
structure Session where
  challengeId : String
  userId : String
  createdAt : Int
  expiresAt : Int
deriving DecidableEq, Repr

/-- The error outcomes the controller can produce, one constructor per distinct
error response of the source (carrying the data the response body reports where
a claim depends on it). -/
inductive ApiError where
  | missingFields
  | invalidBet
  | selfChallenge
  | duplicatePending (existingChallengeId : String)
  | duplicateAccepted (existingChallengeId : String)
  | userNotFound
  | insufficientFunds (balance escrowBalance : Int)
  | insufficientFundsAccept (balance required : Int)
  | challengeNotFound
  | unauthorized
  | notPending
  | challengeExpired
  | notAccepted (currentStatus : Status)
  | sessionNotFound
  | sessionMismatch
  | sessionExpired
  | internal
deriving DecidableEq, Repr

/-- The modelled slice of the Firebase realtime database. -/
structure DB where
  users : String → Option Wallet
  challenges : String → Option Challenge
  sessions : String → Option Session
  index : String → Status → List String

/-- Write a user wallet at users/{uid}/wallet. -/
def setUser (db : DB) (uid : String) (w : Wallet) : DB :=
  { db with users := fun u => if u = uid then some w else db.users u }

/-- Write a challenge record at bettingChallenges/{cid}. -/
def setChallenge (db : DB) (cid : String) (c : Challenge) : DB :=
  { db with challenges := fun i => if i = cid then some c else db.challenges i }

/-- Remove a session record at gameSessions/{token}. -/
def removeSession (db : DB) (token : String) : DB :=
  { db with sessions := fun t => if t = token then none else db.sessions t }

/-- Modelled from the spec: utils/challengeIndexer.js is not among the source
files; per section 3 the user challenge index is a per (user id, status) bucket
of challenge ids, and addChallengeToUserIndex records a new challenge for both
participants under the given status. -/
def addChallengeToUserIndex (idx : String → Status → List String)
    (cid uid1 uid2 : String) (st : Status) : String → Status → List String :=
  fun u s =>
    if (u = uid1 ∨ u = uid2) ∧ s = st then cid :: idx u s else idx u s

/-- Modelled from the spec: utils/challengeIndexer.js is not among the source
files; updateChallengeInUserIndex moves a challenge id into the bucket of its
new status for both participants, removing it from the other buckets. -/
def updateChallengeInUserIndex (idx : String → Status → List String)
    (cid uid1 uid2 : String) (st : Status) : String → Status → List String :=
  fun u s =>
    if u = uid1 ∨ u = uid2 then
      if s = st then cid :: (idx u s).filter (fun x => x ≠ cid)
      else (idx u s).filter (fun x => x ≠ cid)
    else idx u s

/-- The duplicate guard's per-record test on the challenger's pending index
(createChallenge lines 107 to 136): the fetched record involves the same two
users in either orientation, is for the same game and is still pending. -/
def pendingConflict (db : DB) (challengerId challengedId gameId cid : String) : Bool :=
  match db.challenges cid with
  | none => false
  | some c =>
    decide ((c.challengerId = challengerId ∧ c.challengedId = challengedId) ∨
      (c.challengerId = challengedId ∧ c.challengedId = challengerId)) &&
    decide (c.gameId = gameId) && decide (c.status = Status.pending)

/-- JavaScript truthiness test on a nullable score: null, undefined and 0 are
all falsy, any other integer is truthy. -/
def jsFalsyScore : Option Int → Bool
  | none => true
  | some n => decide (n = 0)

/-- The duplicate guard's per-record test on the challenger's accepted index
(createChallenge lines 144 to 174): the fetched record involves the same two
users in either orientation and neither score slot is truthy (the source tests
the scores with the JavaScript not operator, so a score of 0 is falsy). -/
def acceptedConflict (db : DB) (challengerId challengedId cid : String) : Bool :=
  match db.challenges cid with
  | none => false
  | some c =>
    decide ((c.challengerId = challengerId ∧ c.challengedId = challengedId) ∨
      (c.challengerId = challengedId ∧ c.challengedId = challengerId)) &&
    jsFalsyScore c.challengerScore && jsFalsyScore c.challengedScore

/-- First pending-index entry of the challenger that conflicts, in index order,
matching the early return of the source's for loop. -/
def findDuplicatePending (db : DB) (challengerId challengedId gameId : String) :
    Option String :=
  (db.index challengerId Status.pending).find?
    (pendingConflict db challengerId challengedId gameId)

/-- First accepted-index entry of the challenger that conflicts, in index
order, matching the early return of the source's for loop. -/
def findDuplicateAccepted (db : DB) (challengerId challengedId : String) :
    Option String :=
  (db.index challengerId Status.accepted).find?
    (acceptedConflict db challengerId challengedId)

/-- createChallenge: field presence check, bet range check, self-challenge
check, duplicate guard, wallet balance check, escrow debit with one transaction
record, challenge write and index update. The challengeWriteOk oracle makes
the set on bettingChallenges/{id} fail, which the outer catch turns into a 500
response after the wallet writes already happened. -/
def createChallenge (db : DB)
    (challengerId challengedId gameId gameTitle : String)
    (bet : Int) (now : Int) (challengeId : String) (challengeWriteOk : Bool) :
    DB × Except ApiError String :=
  if challengedId = "" ∨ gameId = "" ∨ gameTitle = "" ∨ bet = 0 then
    (db, Except.error ApiError.missingFields)
  else if bet < 10 ∨ bet > 10000 then
    (db, Except.error ApiError.invalidBet)
  else if challengerId = challengedId then
    (db, Except.error ApiError.selfChallenge)
  else
    match findDuplicatePending db challengerId challengedId gameId with
    | some existingId => (db, Except.error (ApiError.duplicatePending existingId))
    | none =>
      match findDuplicateAccepted db challengerId challengedId with
      | some existingId => (db, Except.error (ApiError.duplicateAccepted existingId))
      | none =>
        match db.users challengerId with
        | none => (db, Except.error ApiError.userNotFound)
        | some wallet =>
          if wallet.amount < bet then
            (db, Except.error (ApiError.insufficientFunds wallet.amount wallet.escrowBalance))
          else
            let newBalance := wallet.amount - bet
            let newEscrow := wallet.escrowBalance + bet
            let txn : Txn :=
              { amount := -bet
                kind := "escrow"
                description := "Challenge escrow: " ++ challengeId
                balanceBefore := wallet.amount
                balanceAfter := newBalance
                metaChallengeId := challengeId
                metaType := "challenge_created" }
            let db1 := setUser db challengerId
              { amount := newBalance
                escrowBalance := newEscrow
                transactions := wallet.transactions ++ [txn] }
            if challengeWriteOk then
              let c : Challenge :=
                { challengerId := challengerId
                  challengedId := challengedId
                  gameId := gameId
                  betAmount := bet
                  status := Status.pending
                  createdAt := now
                  expiresAt := now + 86400000 }
              let db2 := setChallenge db1 challengeId c
              let db3 := { db2 with
                index := addChallengeToUserIndex db2.index challengeId
                  challengerId challengedId Status.pending }
              (db3, Except.ok challengeId)
            else
              (db1, Except.error ApiError.internal)

/-- acceptChallenge: authorization, pending-status and expiry checks, escrow
debit of the challenged party with one transaction record, then the status
write. The statusWriteOk oracle makes the status update fail, in which case
the source rolls the wallet amount and escrow balance back to their pre-debit
values (the rollbackOk oracle makes that compensating write fail too). -/
def acceptChallenge (db : DB) (challengeId challengedId : String) (now : Int)
    (statusWriteOk rollbackOk : Bool) : DB × Except ApiError Unit :=
  match db.challenges challengeId with
  | none => (db, Except.error ApiError.challengeNotFound)
  | some c =>
    if c.challengedId ≠ challengedId then (db, Except.error ApiError.unauthorized)
    else if c.status ≠ Status.pending then (db, Except.error ApiError.notPending)
    else if now > c.expiresAt then (db, Except.error ApiError.challengeExpired)
    else
      match db.users challengedId with
      | none => (db, Except.error ApiError.userNotFound)
      | some wallet =>
        if wallet.amount < c.betAmount then
          (db, Except.error (ApiError.insufficientFundsAccept wallet.amount c.betAmount))
        else
          let newBalance := wallet.amount - c.betAmount
          let newEscrow := wallet.escrowBalance + c.betAmount
          let txn : Txn :=
            { amount := -c.betAmount
              kind := "escrow"
              description := "Challenge escrow: " ++ challengeId
              balanceBefore := wallet.amount
              balanceAfter := newBalance
              metaChallengeId := challengeId
              metaType := "challenge_accepted" }
          let debited : Wallet :=
            { amount := newBalance
              escrowBalance := newEscrow
              transactions := wallet.transactions ++ [txn] }
          let db1 := setUser db challengedId debited
          if statusWriteOk then
            let db2 := setChallenge db1 challengeId
              { c with status := Status.accepted, acceptedAt := some now }
            let db3 := { db2 with
              index := updateChallengeInUserIndex db2.index challengeId
                c.challengerId c.challengedId Status.accepted }
            (db3, Except.ok ())
          else if rollbackOk then
            (setUser db1 challengedId
              { debited with amount := wallet.amount, escrowBalance := wallet.escrowBalance },
             Except.error ApiError.internal)
          else
            (db1, Except.error ApiError.internal)

/-- rejectChallenge: only the caller being the challenged party and the status
being pending are checked (the source has no expiry check here); the record is
then stamped rejected and the index updated. No wallet access occurs. -/
def rejectChallenge (db : DB) (challengeId challengedId : String) (now : Int) :
    DB × Except ApiError Unit :=
  match db.challenges challengeId with
  | none => (db, Except.error ApiError.challengeNotFound)
  | some c =>
    if c.challengedId ≠ challengedId then (db, Except.error ApiError.unauthorized)
    else if c.status ≠ Status.pending then (db, Except.error ApiError.notPending)
    else
      let db1 := setChallenge db challengeId
        { c with status := Status.rejected, rejectedAt := some now }
      let db2 := { db1 with
        index := updateChallengeInUserIndex db1.index challengeId
          c.challengerId c.challengedId Status.rejected }
      (db2, Except.ok ())

/-- cancelChallenge: only the caller being the challenger and the status being
pending are checked (the source has no expiry check here); the record is then
stamped cancelled and the index updated. No wallet access occurs. -/
def cancelChallenge (db : DB) (challengeId challengerId : String) (now : Int) :
    DB × Except ApiError Unit :=
  match db.challenges challengeId with
  | none => (db, Except.error ApiError.challengeNotFound)
  | some c =>
    if c.challengerId ≠ challengerId then (db, Except.error ApiError.unauthorized)
    else if c.status ≠ Status.pending then (db, Except.error ApiError.notPending)
    else
      let db1 := setChallenge db challengeId
        { c with status := Status.cancelled, cancelledAt := some now }
      let db2 := { db1 with
        index := updateChallengeInUserIndex db1.index challengeId
          c.challengerId c.challengedId Status.cancelled }
      (db2, Except.ok ())

/-- startGameSession: requires an existing accepted challenge and a caller who
is a participant; stores a session bound to the (challenge, user) pair with a
thirty-minute TTL under the freshly generated token. -/
def startGameSession (db : DB) (challengeId userId sessionToken : String)
    (now : Int) : DB × Except ApiError String :=
  if challengeId = "" then (db, Except.error ApiError.missingFields)
  else
    match db.challenges challengeId with
    | none => (db, Except.error ApiError.challengeNotFound)
    | some c =>
      if c.challengerId ≠ userId ∧ c.challengedId ≠ userId then
        (db, Except.error ApiError.unauthorized)
      else if c.status ≠ Status.accepted then
        (db, Except.error (ApiError.notAccepted c.status))
      else
        let s : Session :=
          { challengeId := challengeId
            userId := userId
            createdAt := now
            expiresAt := now + 1800000 }
        ({ db with sessions := fun t =>
            if t = sessionToken then some s else db.sessions t },
         Except.ok sessionToken)

/-- The updates object assembled by submitChallengeScore from its snapshot of
the challenge (lines 902 to 961): the caller's score slot, and, when both
scores are then non-null, the completed status, completion timestamp and the
winner. Absent fields are none, meaning the update leaves them untouched. -/
structure ScoreUpdates where
  challengerScore : Option Int := none
  challengedScore : Option Int := none
  status : Option Status := none
  completedAt : Option Int := none
  winnerId : Option String := none
deriving DecidableEq, Repr

/-- Winner computation of submitChallengeScore: strictly higher score wins,
equal scores give the sentinel tie. -/
def computeWinner (c : Challenge) (a b : Int) : String :=
  if a > b then c.challengerId else if b > a then c.challengedId else "tie"

/-- Compute the updates object from a snapshot of the challenge record. The
both-slots-present test is a null check (an Option.isSome here), so a score of
exactly 0 counts as present. -/
def scoreUpdates (c : Challenge) (userId : String) (score now : Int) :
    ScoreUpdates :=
  let isChallenger := c.challengerId = userId
  let base : ScoreUpdates :=
    if isChallenger then { challengerScore := some score }
    else { challengedScore := some score }
  let newChallengerScore :=
    if isChallenger then some score else c.challengerScore
  let newChallengedScore :=
    if isChallenger then c.challengedScore else some score
  match newChallengerScore, newChallengedScore with
  | some a, some b =>
    { base with
      status := some Status.completed
      completedAt := some now
      winnerId := some (computeWinner c a b) }
  | _, _ => base

/-- Firebase update semantics on the challenge record: fields present in the
updates object overwrite, absent fields are kept. -/
def applyScoreUpdates (c : Challenge) (u : ScoreUpdates) : Challenge :=
  { c with
    challengerScore := match u.challengerScore with
      | some s => some s
      | none => c.challengerScore
    challengedScore := match u.challengedScore with
      | some s => some s
      | none => c.challengedScore
    status := match u.status with
      | some s => s
      | none => c.status
    completedAt := match u.completedAt with
      | some t => some t
      | none => c.completedAt
    winnerId := match u.winnerId with
      | some w => some w
      | none => c.winnerId }

/-- submitChallengeScore: session validation (absent, mismatched, expired, in
that order), challenge lookup, participant and accepted-status checks, then the
read-compute-write of the score updates, the index update on completion, and
the unconditional removal of the session. In this sequential model the write
applies the updates computed from the record just read. -/
def submitChallengeScore (db : DB) (challengeId userId sessionToken : String)
    (score now : Int) : DB × Except ApiError Unit :=
  match db.sessions sessionToken with
  | none => (db, Except.error ApiError.sessionNotFound)
  | some s =>
    if s.userId ≠ userId ∨ s.challengeId ≠ challengeId then
      (db, Except.error ApiError.sessionMismatch)
    else if now > s.expiresAt then
      (db, Except.error ApiError.sessionExpired)
    else
      match db.challenges challengeId with
      | none => (db, Except.error ApiError.challengeNotFound)
      | some c =>
        if c.challengerId ≠ userId ∧ c.challengedId ≠ userId then
          (db, Except.error ApiError.unauthorized)
        else if c.status ≠ Status.accepted then
          (db, Except.error (ApiError.notAccepted c.status))
        else
          let u := scoreUpdates c userId score now
          let db1 := setChallenge db challengeId (applyScoreUpdates c u)
          let db2 :=
            if u.status = some Status.completed then
              { db1 with
                index := updateChallengeInUserIndex db1.index challengeId
                  c.challengerId c.challengedId Status.completed }
            else db1
          (removeSession db2 sessionToken, Except.ok ())

/-- Status of a challenge in a state, used to phrase the transition system. -/
def statusOf (db : DB) (cid : String) : Option Status :=
  (db.challenges cid).map Challenge.status

/-- An accepted challenge with no scores yet, used to exhibit the submit-score
race: both participants' handlers read this same snapshot before either one
writes, exactly as the source's plain get-then-update allows. -/
def raceChallenge : Challenge :=
  { challengerId := "alice"
    challengedId := "bob"
    gameId := "g1"
    betAmount := 100
    status := Status.accepted
    createdAt := 0
    expiresAt := 86400000
    acceptedAt := some 10 }

/-- The challenge record after the interleaving in which both submit-score
handlers compute their updates from the same pre-write snapshot and then write
one after the other (the challenger submits 5, the challenged submits 3). -/
def raceFinal : Challenge :=
  applyScoreUpdates
    (applyScoreUpdates raceChallenge (scoreUpdates raceChallenge "alice" 5 1000))
    (scoreUpdates raceChallenge "bob" 3 1001)

/-- A pending challenge whose expiry timestamp (100) is already in the past at
the time (200) the actions below run. -/
def chExpired : Challenge :=
  { challengerId := "alice"
    challengedId := "bob"
    gameId := "g1"
    betAmount := 50
    status := Status.pending
    createdAt := 0
    expiresAt := 100 }

/-- A state holding only the expired pending challenge. -/
def dbExpired : DB :=
  { users := fun _ => none
    challenges := fun i => if i = "c1" then some chExpired else none
    sessions := fun _ => none
    index := fun _ _ => [] }

/-- A still-valid session bound to the expired pending challenge, for the
challenged party. -/
def sessExpiredDb : Session :=
  { challengeId := "c1", userId := "bob", createdAt := 0, expiresAt := 10000 }

/-- The expired-pending-challenge state together with a valid session. -/
def dbExpiredS : DB :=
  { users := fun _ => none
    challenges := fun i => if i = "c1" then some chExpired else none
    sessions := fun t => if t = "tok" then some sessExpiredDb else none
    index := fun _ _ => [] }

/-- An accepted challenge between alice and bob in which the challenger has
already submitted a score of exactly 0 (the challenged party has not). -/
def chScoreZero : Challenge :=
  { challengerId := "alice"
    challengedId := "bob"
    gameId := "g1"
    betAmount := 100
    status := Status.accepted
    createdAt := 0
    expiresAt := 86400000
    acceptedAt := some 10
    challengerScore := some 0 }

/-- A state where alice's accepted index holds that challenge and alice has
ample funds for a new bet. -/
def dbScoreZero : DB :=
  { users := fun u => if u = "alice" then
      some { amount := 1000, escrowBalance := 0, transactions := [] } else none
    challenges := fun i => if i = "c1" then some chScoreZero else none
    sessions := fun _ => none
    index := fun u s => if u = "alice" ∧ s = Status.accepted then ["c1"] else [] }

/-- A pending challenge between alice and bob for game g1. -/
def chPendingDup : Challenge :=
  { challengerId := "alice"
    challengedId := "bob"
    gameId := "g1"
    betAmount := 50
    status := Status.pending
    createdAt := 0
    expiresAt := 86400000 }

/-- A state where alice's pending index holds that challenge. -/
def dbPendingDup : DB :=
  { users := fun u => if u = "alice" then
      some { amount := 1000, escrowBalance := 0, transactions := [] } else none
    challenges := fun i => if i = "p1" then some chPendingDup else none
    sessions := fun _ => none
    index := fun u s => if u = "alice" ∧ s = Status.pending then ["p1"] else [] }

/-- An accepted challenge between alice and bob with no scores submitted. -/
def chAcceptedDup : Challenge :=
  { challengerId := "bob"
    challengedId := "alice"
    gameId := "g3"
    betAmount := 50
    status := Status.accepted
    createdAt := 0
    expiresAt := 86400000
    acceptedAt := some 10 }

/-- A state where alice's accepted index holds that challenge. -/
def dbAcceptedDup : DB :=
  { users := fun u => if u = "alice" then
      some { amount := 1000, escrowBalance := 0, transactions := [] } else none
    challenges := fun i => if i = "a1" then some chAcceptedDup else none
    sessions := fun _ => none
    index := fun u s => if u = "alice" ∧ s = Status.accepted then ["a1"] else [] }

/-- A state with no outstanding challenges and a funded challenger. -/
def dbClean : DB :=
  { users := fun u => if u = "alice" then
      some { amount := 1000, escrowBalance := 0, transactions := [] } else none
    challenges := fun _ => none
    sessions := fun _ => none
    index := fun _ _ => [] }

/-- A state with a funded challenger (1000 available, 5 in escrow) and no
outstanding challenges. -/
def dbFunded : DB :=
  { users := fun u => if u = "alice" then
      some { amount := 1000, escrowBalance := 5, transactions := [] } else none
    challenges := fun _ => none
    sessions := fun _ => none
    index := fun _ _ => [] }

/-- A pending challenge from alice to bob with bet 50 and a funded bob, used
to exercise the accept rollback path. -/
def chPendingAcc : Challenge :=
  { challengerId := "alice"
    challengedId := "bob"
    gameId := "g1"
    betAmount := 50
    status := Status.pending
    createdAt := 0
    expiresAt := 86400000 }

/-- State for the accept rollback witness. -/
def dbAcceptRb : DB :=
  { users := fun u => if u = "bob" then
      some { amount := 80, escrowBalance := 0, transactions := [] } else none
    challenges := fun i => if i = "c1" then some chPendingAcc else none
    sessions := fun _ => none
    index := fun _ _ => [] }

/-- An accepted challenge in which the challenger has already submitted a
score of exactly 0 and the challenged party has not yet submitted. -/
def chHalfZero : Challenge :=
  { challengerId := "alice"
    challengedId := "bob"
    gameId := "g1"
    betAmount := 50
    status := Status.accepted
    createdAt := 0
    expiresAt := 86400000
    acceptedAt := some 10
    challengerScore := some 0 }

/-- A valid session for bob on that challenge. -/
def sessHalfZero : Session :=
  { challengeId := "c1", userId := "bob", createdAt := 0, expiresAt := 10000 }

/-- State for the zero-zero tie witness. -/
def dbHalfZero : DB :=
  { users := fun _ => none
    challenges := fun i => if i = "c1" then some chHalfZero else none
    sessions := fun t => if t = "tok" then some sessHalfZero else none
    index := fun _ _ => [] }

/-- Setting a wallet does not change any challenge status. -/
theorem statusOf_setUser (db : DB) (uid : String) (w : Wallet) (cid : String) :
    statusOf (setUser db uid w) cid = statusOf db cid := rfl

/-- Setting a challenge changes exactly that challenge's status. -/
theorem statusOf_setChallenge (db : DB) (t : String) (c : Challenge) (cid : String) :
    statusOf (setChallenge db t c) cid =
      if cid = t then some c.status else statusOf db cid := by
  unfold statusOf setChallenge
  by_cases h : cid = t <;> simp [h]

/-- Removing a session does not change any challenge status. -/
theorem statusOf_removeSession (db : DB) (tok : String) (cid : String) :
    statusOf (removeSession db tok) cid = statusOf db cid := rfl

/-- The updates object either carries no status or the completed status. -/
theorem scoreUpdates_status_cases (c : Challenge) (uid : String) (score now : Int) :
    (scoreUpdates c uid score now).status = none ∨
    (scoreUpdates c uid score now).status = some Status.completed := by
  unfold scoreUpdates
  dsimp only
  split
  · exact Or.inr rfl
  · split <;> exact Or.inl rfl

/-- Claim C6: a successful Reject or Cancel of a pending challenge moves no
money: the wallets of every user (available balance, escrow balance and
transaction list) are exactly as before the operation. This holds for every
run of rejectChallenge and cancelChallenge, successful or not, since neither
handler touches the users subtree. -/
theorem reject_cancel_no_wallet_movement (db : DB) (cid ced chg u : String)
    (now : Int) :
    (rejectChallenge db cid ced now).1.users u = db.users u ∧
    (cancelChallenge db cid chg now).1.users u = db.users u := by
  constructor
  · unfold rejectChallenge
    rcases hc : db.challenges cid with _ | c
    · rfl
    · dsimp only
      split
      · rfl
      · split <;> rfl
  · unfold cancelChallenge
    rcases hc : db.challenges cid with _ | c
    · rfl
    · dsimp only
      split
      · rfl
      · split <;> rfl

/-- The result of applying an updates object to the stored record: the status
becomes the one carried by the updates, if any. -/
theorem applyScoreUpdates_status (c : Challenge) (u : ScoreUpdates) :
    (applyScoreUpdates c u).status =
      match u.status with | some s => s | none => c.status := rfl

/-- Claim C7: challenge status only moves forward. Each handler either leaves
a challenge's status unchanged or performs the unique transition it implements:
acceptChallenge pending to accepted, rejectChallenge pending to rejected,
cancelChallenge pending to cancelled, submitChallengeScore accepted to
completed. Since every status-changing branch first requires the predecessor
status, no transition applies twice and terminal states are never left. -/
theorem status_moves_forward (db : DB) (target ced chg uid tok : String)
    (now score : Int) (f1 f2 : Bool) (cid : String) :
    (statusOf (acceptChallenge db target ced now f1 f2).1 cid = statusOf db cid ∨
      (statusOf db cid = some Status.pending ∧
       statusOf (acceptChallenge db target ced now f1 f2).1 cid = some Status.accepted)) ∧
    (statusOf (rejectChallenge db target ced now).1 cid = statusOf db cid ∨
      (statusOf db cid = some Status.pending ∧
       statusOf (rejectChallenge db target ced now).1 cid = some Status.rejected)) ∧
    (statusOf (cancelChallenge db target chg now).1 cid = statusOf db cid ∨
      (statusOf db cid = some Status.pending ∧
       statusOf (cancelChallenge db target chg now).1 cid = some Status.cancelled)) ∧
    (statusOf (submitChallengeScore db target uid tok score now).1 cid = statusOf db cid ∨
      (statusOf db cid = some Status.accepted ∧
       statusOf (submitChallengeScore db target uid tok score now).1 cid = some Status.completed)) := by
  refine ⟨?_, ?_, ?_, ?_⟩
  · unfold acceptChallenge
    rcases hc : db.challenges target with _ | c
    · exact Or.inl rfl
    · dsimp only
      split
      · exact Or.inl rfl
      split
      · exact Or.inl rfl
      rename_i hstat
      simp only [ne_eq, not_not] at hstat
      split
      · exact Or.inl rfl
      rcases db.users ced with _ | w
      · exact Or.inl rfl
      dsimp only
      split
      · exact Or.inl rfl
      split
      · by_cases hcid : cid = target
        · subst hcid
          refine Or.inr ⟨?_, ?_⟩
          · simp only [statusOf, hc, Option.map_some', hstat]
          · simp [statusOf, setChallenge, setUser]
        · refine Or.inl ?_
          simp [statusOf, setChallenge, setUser, hcid]
      split
      · exact Or.inl rfl
      · exact Or.inl rfl
  · unfold rejectChallenge
    rcases hc : db.challenges target with _ | c
    · exact Or.inl rfl
    · dsimp only
      split
      · exact Or.inl rfl
      split
      · exact Or.inl rfl
      rename_i hstat
      simp only [ne_eq, not_not] at hstat
      by_cases hcid : cid = target
      · subst hcid
        refine Or.inr ⟨?_, ?_⟩
        · simp only [statusOf, hc, Option.map_some', hstat]
        · simp [statusOf, setChallenge]
      · refine Or.inl ?_
        simp [statusOf, setChallenge, hcid]
  · unfold cancelChallenge
    rcases hc : db.challenges target with _ | c
    · exact Or.inl rfl
    · dsimp only
      split
      · exact Or.inl rfl
      split
      · exact Or.inl rfl
      rename_i hstat
      simp only [ne_eq, not_not] at hstat
      by_cases hcid : cid = target
      · subst hcid
        refine Or.inr ⟨?_, ?_⟩
        · simp only [statusOf, hc, Option.map_some', hstat]
        · simp [statusOf, setChallenge]
      · refine Or.inl ?_
        simp [statusOf, setChallenge, hcid]
  · unfold submitChallengeScore
    rcases db.sessions tok with _ | s
    · exact Or.inl rfl
    dsimp only
    split
    · exact Or.inl rfl
    split
    · exact Or.inl rfl
    rcases hc : db.challenges target with _ | c
    · exact Or.inl rfl
    dsimp only
    split
    · exact Or.inl rfl
    split
    · exact Or.inl rfl
    rename_i hstat
    simp only [ne_eq, not_not] at hstat
    split
    · rename_i hcompl
      by_cases hcid : cid = target
      · subst hcid
        refine Or.inr ⟨?_, ?_⟩
        · simp only [statusOf, hc, Option.map_some', hstat]
        · simp [statusOf, setChallenge, removeSession, applyScoreUpdates_status, hcompl]
      · refine Or.inl ?_
        simp [statusOf, setChallenge, removeSession, hcid]
    · rename_i hcompl
      have hnone : (scoreUpdates c uid score now).status = none := by
        rcases scoreUpdates_status_cases c uid score now with h | h
        · exact h
        · exact absurd h hcompl
      by_cases hcid : cid = target
      · subst hcid
        refine Or.inl ?_
        simp [statusOf, setChallenge, removeSession, applyScoreUpdates_status, hnone, hc]
      · refine Or.inl ?_
        simp [statusOf, setChallenge, removeSession, hcid]

/-- Claim C10: the source's submit-score step is a plain read-then-write, so
when both participants' handlers read the challenge before either writes, the
final record holds both scores yet is still accepted, was never completed and
has no winner, contradicting the required atomic conditional update. -/
theorem submitScore_race_leaves_accepted :
    raceFinal.challengerScore = some 5 ∧
    raceFinal.challengedScore = some 3 ∧
    raceFinal.status = Status.accepted ∧
    raceFinal.winnerId = none := by decide

/-- Counterexample to claim C4: rejectChallenge performs no expiry check, so
rejecting a pending challenge whose expiry has passed succeeds and changes the
record to rejected instead of failing with an expiry error. -/
theorem reject_ignores_expiry_cex :
    statusOf dbExpired "c1" = some Status.pending ∧
    (200 : Int) > chExpired.expiresAt ∧
    (rejectChallenge dbExpired "c1" "bob" 200).2 = Except.ok () ∧
    statusOf (rejectChallenge dbExpired "c1" "bob" 200).1 "c1" =
      some Status.rejected :=
  ⟨by decide, by decide, rfl, by decide⟩

/-- Claim C4 (amended): only acceptChallenge checks the expiry of a pending
challenge, rejecting it with an expiry error and leaving the state unchanged;
rejectChallenge and cancelChallenge check only that the status is pending and
process an expired pending challenge normally; submitChallengeScore requires
the accepted status, so against a pending challenge (expired or not) it fails
with a not-accepted status error and leaves the state unchanged. -/
theorem expiry_checked_only_on_accept (db : DB) (cid : String) (c : Challenge)
    (now score : Int) (tok uid : String) (s : Session) (f1 f2 : Bool)
    (hc : db.challenges cid = some c)
    (hstat : c.status = Status.pending)
    (hexp : now > c.expiresAt) :
    acceptChallenge db cid c.challengedId now f1 f2 =
      (db, Except.error ApiError.challengeExpired) ∧
    ((rejectChallenge db cid c.challengedId now).2 = Except.ok () ∧
      statusOf (rejectChallenge db cid c.challengedId now).1 cid =
        some Status.rejected) ∧
    ((cancelChallenge db cid c.challengerId now).2 = Except.ok () ∧
      statusOf (cancelChallenge db cid c.challengerId now).1 cid =
        some Status.cancelled) ∧
    (db.sessions tok = some s → s.userId = uid → s.challengeId = cid →
      ¬ now > s.expiresAt →
      (c.challengerId = uid ∨ c.challengedId = uid) →
      submitChallengeScore db cid uid tok score now =
        (db, Except.error (ApiError.notAccepted Status.pending))) := by
  refine ⟨?_, ⟨?_, ?_⟩, ⟨?_, ?_⟩, ?_⟩
  · unfold acceptChallenge
    rw [hc]
    simp [hstat, hexp]
  · unfold rejectChallenge
    rw [hc]
    simp [hstat]
  · unfold rejectChallenge
    rw [hc]
    simp [hstat, statusOf, setChallenge]
  · unfold cancelChallenge
    rw [hc]
    simp [hstat]
  · unfold cancelChallenge
    rw [hc]
    simp [hstat, statusOf, setChallenge]
  · intro hsess hsu hscid hsexp hpart
    unfold submitChallengeScore
    rw [hsess, hc]
    have hnotin : ¬ (c.challengerId ≠ uid ∧ c.challengedId ≠ uid) := by
      rcases hpart with h | h
      · exact fun hcon => hcon.1 h
      · exact fun hcon => hcon.2 h
    simp [hsu, hscid, hsexp, hnotin, hstat]

/-- Witness for the amended claim C4 at a concrete state: the expired pending
challenge is refused by accept with the expiry error, successfully rejected by
reject, and refused by submit-score with the status error. -/
theorem expiry_checked_only_on_accept_witness :
    acceptChallenge dbExpiredS "c1" "bob" 200 true true =
      (dbExpiredS, Except.error ApiError.challengeExpired) ∧
    (rejectChallenge dbExpiredS "c1" "bob" 200).2 = Except.ok () ∧
    statusOf (rejectChallenge dbExpiredS "c1" "bob" 200).1 "c1" =
      some Status.rejected ∧
    submitChallengeScore dbExpiredS "c1" "bob" "tok" 7 200 =
      (dbExpiredS, Except.error (ApiError.notAccepted Status.pending)) := by
  have h := expiry_checked_only_on_accept dbExpiredS "c1" chExpired 200 7 "tok"
    "bob" sessExpiredDb true true (by decide) (by decide) (by decide)
  exact ⟨h.1, h.2.1.1, h.2.1.2,
    h.2.2.2 (by decide) (by decide) (by decide) (by decide) (Or.inr (by decide))⟩

/-- Counterexample to claim C5: one score (exactly 0) has already been
submitted on the outstanding accepted challenge, so by the claim the guard
should permit a new creation; the source tests the score slots with the
JavaScript not operator, treats the 0 as absent, and rejects the creation. -/
theorem create_guard_zero_score_cex :
    chScoreZero.challengerScore = some 0 ∧
    (createChallenge dbScoreZero "alice" "bob" "g2" "Game Two" 100 0 "c2" true).2 =
      Except.error (ApiError.duplicateAccepted "c1") :=
  ⟨rfl, rfl⟩

/-- Claim C5 (amended): the guard rejects creation, returning an existing
conflicting challenge id, when the challenger's pending index holds a pending
challenge between the same two users for the same game; failing that, it
rejects when the challenger's accepted index holds a challenge between the
same two users in which neither score slot is truthy, where a submitted score
of exactly 0 counts as absent (JavaScript falsy check); otherwise the guard
permits creation and a sufficiently funded request succeeds. -/
theorem duplicate_guard_characterized (db : DB)
    (a b g gt cid newId : String) (bet now : Int) (c : Challenge)
    (hb : ¬ b = "") (hg : ¬ g = "") (hgt : ¬ gt = "")
    (hbet0 : ¬ bet = 0) (hrange : ¬ (bet < 10 ∨ bet > 10000)) (hself : ¬ a = b) :
    (cid ∈ db.index a Status.pending → db.challenges cid = some c →
      ((c.challengerId = a ∧ c.challengedId = b) ∨
        (c.challengerId = b ∧ c.challengedId = a)) →
      c.gameId = g → c.status = Status.pending →
      ∃ e ce, (createChallenge db a b g gt bet now newId true).2 =
          Except.error (ApiError.duplicatePending e) ∧
        e ∈ db.index a Status.pending ∧ db.challenges e = some ce ∧
        ((ce.challengerId = a ∧ ce.challengedId = b) ∨
          (ce.challengerId = b ∧ ce.challengedId = a)) ∧
        ce.gameId = g ∧ ce.status = Status.pending) ∧
    (findDuplicatePending db a b g = none →
      cid ∈ db.index a Status.accepted → db.challenges cid = some c →
      ((c.challengerId = a ∧ c.challengedId = b) ∨
        (c.challengerId = b ∧ c.challengedId = a)) →
      jsFalsyScore c.challengerScore = true →
      jsFalsyScore c.challengedScore = true →
      ∃ e ce, (createChallenge db a b g gt bet now newId true).2 =
          Except.error (ApiError.duplicateAccepted e) ∧
        e ∈ db.index a Status.accepted ∧ db.challenges e = some ce ∧
        ((ce.challengerId = a ∧ ce.challengedId = b) ∨
          (ce.challengerId = b ∧ ce.challengedId = a)) ∧
        jsFalsyScore ce.challengerScore = true ∧
        jsFalsyScore ce.challengedScore = true) ∧
    (findDuplicatePending db a b g = none →
      findDuplicateAccepted db a b = none →
      ∀ w, db.users a = some w → ¬ w.amount < bet →
        (createChallenge db a b g gt bet now newId true).2 = Except.ok newId) := by
  have hcond1 : ¬ (b = "" ∨ g = "" ∨ gt = "" ∨ bet = 0) := by
    intro h
    rcases h with h | h | h | h
    · exact hb h
    · exact hg h
    · exact hgt h
    · exact hbet0 h
  refine ⟨?_, ?_, ?_⟩
  · intro hmem hc hpair hgame hstatus
    have hp : pendingConflict db a b g cid = true := by
      unfold pendingConflict
      rw [hc]
      simp [hpair, hgame, hstatus]
    have hsome : (findDuplicatePending db a b g).isSome := by
      unfold findDuplicatePending
      rw [List.find?_isSome]
      exact ⟨cid, hmem, hp⟩
    obtain ⟨e, he⟩ := Option.isSome_iff_exists.mp hsome
    have hpe : pendingConflict db a b g e = true := List.find?_some he
    have hmeme : e ∈ db.index a Status.pending := List.mem_of_find?_eq_some he
    rcases hce : db.challenges e with _ | ce
    · unfold pendingConflict at hpe
      rw [hce] at hpe
      exact absurd hpe (by simp)
    · unfold pendingConflict at hpe
      rw [hce] at hpe
      simp only [Bool.and_eq_true, decide_eq_true_eq] at hpe
      refine ⟨e, ce, ?_, hmeme, hce, hpe.1.1, hpe.1.2, hpe.2⟩
      unfold createChallenge
      rw [if_neg hcond1, if_neg hrange, if_neg hself, he]
  · intro hpnone hmem hc hpair hf1 hf2
    have hp : acceptedConflict db a b cid = true := by
      unfold acceptedConflict
      rw [hc]
      simp [hpair, hf1, hf2]
    have hsome : (findDuplicateAccepted db a b).isSome := by
      unfold findDuplicateAccepted
      rw [List.find?_isSome]
      exact ⟨cid, hmem, hp⟩
    obtain ⟨e, he⟩ := Option.isSome_iff_exists.mp hsome
    have hpe : acceptedConflict db a b e = true := List.find?_some he
    have hmeme : e ∈ db.index a Status.accepted := List.mem_of_find?_eq_some he
    rcases hce : db.challenges e with _ | ce
    · unfold acceptedConflict at hpe
      rw [hce] at hpe
      exact absurd hpe (by simp)
    · unfold acceptedConflict at hpe
      rw [hce] at hpe
      simp only [Bool.and_eq_true, decide_eq_true_eq] at hpe
      refine ⟨e, ce, ?_, hmeme, hce, hpe.1.1, hpe.1.2, hpe.2⟩
      unfold createChallenge
      rw [if_neg hcond1, if_neg hrange, if_neg hself, hpnone, he]
  · intro hpnone hanone w hw hfunds
    unfold createChallenge
    rw [if_neg hcond1, if_neg hrange, if_neg hself, hpnone, hanone, hw]
    simp [hfunds]

/-- Witness for the amended claim C5 at concrete states: a same-game pending
conflict is rejected with the existing id, an accepted no-truthy-score
conflict is rejected with the existing id, and a conflict-free funded request
succeeds. -/
theorem duplicate_guard_characterized_witness :
    (∃ e ce, (createChallenge dbPendingDup "alice" "bob" "g1" "Game One" 100 0 "n1" true).2 =
        Except.error (ApiError.duplicatePending e) ∧
      e ∈ dbPendingDup.index "alice" Status.pending ∧
      dbPendingDup.challenges e = some ce ∧
      ((ce.challengerId = "alice" ∧ ce.challengedId = "bob") ∨
        (ce.challengerId = "bob" ∧ ce.challengedId = "alice")) ∧
      ce.gameId = "g1" ∧ ce.status = Status.pending) ∧
    (∃ e ce, (createChallenge dbAcceptedDup "alice" "bob" "g2" "Game Two" 100 0 "n1" true).2 =
        Except.error (ApiError.duplicateAccepted e) ∧
      e ∈ dbAcceptedDup.index "alice" Status.accepted ∧
      dbAcceptedDup.challenges e = some ce ∧
      ((ce.challengerId = "alice" ∧ ce.challengedId = "bob") ∨
        (ce.challengerId = "bob" ∧ ce.challengedId = "alice")) ∧
      jsFalsyScore ce.challengerScore = true ∧
      jsFalsyScore ce.challengedScore = true) ∧
    (createChallenge dbClean "alice" "bob" "g1" "Game One" 100 0 "n1" true).2 =
      Except.ok "n1" := by
  refine ⟨?_, ?_, ?_⟩
  · exact (duplicate_guard_characterized dbPendingDup "alice" "bob" "g1" "Game One"
      "p1" "n1" 100 0 chPendingDup (by decide) (by decide) (by decide) (by decide)
      (by decide) (by decide)).1 (by decide) (by decide) (by decide) (by decide)
      (by decide)
  · exact (duplicate_guard_characterized dbAcceptedDup "alice" "bob" "g2" "Game Two"
      "a1" "n1" 100 0 chAcceptedDup (by decide) (by decide) (by decide) (by decide)
      (by decide) (by decide)).2.1 (by decide) (by decide) (by decide) (by decide)
      (by decide) (by decide)
  · exact (duplicate_guard_characterized dbClean "alice" "bob" "g1" "Game One"
      "x" "n1" 100 0 chPendingDup (by decide) (by decide) (by decide) (by decide)
      (by decide) (by decide)).2.2 (by decide) (by decide)
      { amount := 1000, escrowBalance := 0, transactions := [] } (by decide) (by decide)

/-- Claim C1: a successful create debits the challenger's available balance by
exactly the bet, credits escrow by exactly the bet, and appends exactly one
transaction record whose balance-before and balance-after fields are the
available balance before and after the debit; and whenever the available
balance is below the bet, create fails with the insufficient-funds error
reporting both the available and the escrow balance, leaving the state
unchanged. -/
theorem create_escrow_hold_correct (db : DB)
    (a b g gt newId : String) (bet now : Int) (w : Wallet)
    (hb : ¬ b = "") (hg : ¬ g = "") (hgt : ¬ gt = "")
    (hbet0 : ¬ bet = 0) (hrange : ¬ (bet < 10 ∨ bet > 10000)) (hself : ¬ a = b)
    (hpnone : findDuplicatePending db a b g = none)
    (hanone : findDuplicateAccepted db a b = none)
    (hw : db.users a = some w) :
    (w.amount < bet →
      createChallenge db a b g gt bet now newId true =
        (db, Except.error (ApiError.insufficientFunds w.amount w.escrowBalance))) ∧
    (¬ w.amount < bet →
      (createChallenge db a b g gt bet now newId true).2 = Except.ok newId ∧
      (createChallenge db a b g gt bet now newId true).1.users a =
        some ⟨w.amount - bet, w.escrowBalance + bet, w.transactions ++
          [⟨-bet, "escrow", "Challenge escrow: " ++ newId, w.amount,
            w.amount - bet, newId, "challenge_created"⟩]⟩) := by
  have hcond1 : ¬ (b = "" ∨ g = "" ∨ gt = "" ∨ bet = 0) := by
    intro h
    rcases h with h | h | h | h
    · exact hb h
    · exact hg h
    · exact hgt h
    · exact hbet0 h
  constructor
  · intro hlt
    unfold createChallenge
    rw [if_neg hcond1, if_neg hrange, if_neg hself, hpnone, hanone, hw]
    simp [hlt]
  · intro hfunds
    constructor
    · unfold createChallenge
      rw [if_neg hcond1, if_neg hrange, if_neg hself, hpnone, hanone, hw]
      simp [hfunds]
    · unfold createChallenge
      rw [if_neg hcond1, if_neg hrange, if_neg hself, hpnone, hanone, hw]
      simp [hfunds, setUser, setChallenge]

/-- Witness for claim C1: from a wallet holding 1000 available and 5 in
escrow, a bet of 100 succeeds and yields the debited wallet with its escrow
transaction, and a bet of 2000 fails with the insufficient-funds error
reporting both balances. -/
theorem create_escrow_hold_correct_witness :
    (createChallenge dbFunded "alice" "bob" "g1" "Game One" 100 0 "n1" true).2 =
      Except.ok "n1" ∧
    (createChallenge dbFunded "alice" "bob" "g1" "Game One" 100 0 "n1" true).1.users "alice" =
      some ⟨900, 105, [⟨-100, "escrow", "Challenge escrow: n1", 1000, 900,
        "n1", "challenge_created"⟩]⟩ ∧
    createChallenge dbFunded "alice" "bob" "g1" "Game One" 2000 0 "n1" true =
      (dbFunded, Except.error (ApiError.insufficientFunds 1000 5)) := by
  have h1 := (create_escrow_hold_correct dbFunded "alice" "bob" "g1" "Game One"
    "n1" 100 0 ⟨1000, 5, []⟩ (by decide) (by decide) (by decide) (by decide)
    (by decide) (by decide) (by decide) (by decide) (by decide)).2 (by decide)
  have h2 := (create_escrow_hold_correct dbFunded "alice" "bob" "g1" "Game One"
    "n1" 2000 0 ⟨1000, 5, []⟩ (by decide) (by decide) (by decide) (by decide)
    (by decide) (by decide) (by decide) (by decide) (by decide)).1 (by decide)
  exact ⟨h1.1, h1.2, h2⟩

/-- Claim C9: create is not atomic across the wallet debit and the challenge
write. When the write of the challenge record fails after the wallet debit,
the handler surfaces the error with no compensating rollback: the resulting
state is exactly the input state with the challenger's wallet debited into
escrow and the escrow transaction appended, and no challenge record exists
under the new id. -/
theorem create_write_failure_leaves_debit (db : DB)
    (a b g gt newId : String) (bet now : Int) (w : Wallet)
    (hb : ¬ b = "") (hg : ¬ g = "") (hgt : ¬ gt = "")
    (hbet0 : ¬ bet = 0) (hrange : ¬ (bet < 10 ∨ bet > 10000)) (hself : ¬ a = b)
    (hpnone : findDuplicatePending db a b g = none)
    (hanone : findDuplicateAccepted db a b = none)
    (hw : db.users a = some w) (hfunds : ¬ w.amount < bet)
    (hfresh : db.challenges newId = none) :
    createChallenge db a b g gt bet now newId false =
      (setUser db a ⟨w.amount - bet, w.escrowBalance + bet, w.transactions ++
        [⟨-bet, "escrow", "Challenge escrow: " ++ newId, w.amount,
          w.amount - bet, newId, "challenge_created"⟩]⟩,
       Except.error ApiError.internal) ∧
    (createChallenge db a b g gt bet now newId false).1.challenges newId = none := by
  have hcond1 : ¬ (b = "" ∨ g = "" ∨ gt = "" ∨ bet = 0) := by
    intro h
    rcases h with h | h | h | h
    · exact hb h
    · exact hg h
    · exact hgt h
    · exact hbet0 h
  have hmain : createChallenge db a b g gt bet now newId false =
      (setUser db a ⟨w.amount - bet, w.escrowBalance + bet, w.transactions ++
        [⟨-bet, "escrow", "Challenge escrow: " ++ newId, w.amount,
          w.amount - bet, newId, "challenge_created"⟩]⟩,
       Except.error ApiError.internal) := by
    unfold createChallenge
    rw [if_neg hcond1, if_neg hrange, if_neg hself, hpnone, hanone, hw]
    simp [hfunds]
  refine ⟨hmain, ?_⟩
  rw [hmain]
  exact hfresh

/-- Witness for claim C9: with the funded wallet and the challenge write
failing, create reports the failure while the wallet has been debited, the
escrow transaction recorded, and no challenge exists under the new id. -/
theorem create_write_failure_leaves_debit_witness :
    createChallenge dbFunded "alice" "bob" "g1" "Game One" 100 0 "n1" false =
      (setUser dbFunded "alice" ⟨900, 105, [⟨-100, "escrow",
        "Challenge escrow: n1", 1000, 900, "n1", "challenge_created"⟩]⟩,
       Except.error ApiError.internal) ∧
    (createChallenge dbFunded "alice" "bob" "g1" "Game One" 100 0 "n1" false).1.challenges "n1" =
      none := by
  exact create_write_failure_leaves_debit dbFunded "alice" "bob" "g1" "Game One"
    "n1" 100 0 ⟨1000, 5, []⟩ (by decide) (by decide) (by decide) (by decide)
    (by decide) (by decide) (by decide) (by decide) (by decide) (by decide)
    (by decide)

/-- Claim C2: in accept, when the status write fails after the challenged
party's wallet was debited into escrow and the compensating rollback write
succeeds, the wallet's available and escrow balances are restored to their
exact pre-debit values before the error is surfaced, and the challenge record
is untouched. (When the rollback write itself also fails, the source only
logs both errors, which the rollbackOk oracle set to false models.) -/
theorem accept_rollback_restores_wallet (db : DB) (cid ced : String)
    (now : Int) (c : Challenge) (w : Wallet)
    (hc : db.challenges cid = some c)
    (hauth : c.challengedId = ced)
    (hstat : c.status = Status.pending)
    (hexp : ¬ now > c.expiresAt)
    (hw : db.users ced = some w)
    (hfunds : ¬ w.amount < c.betAmount) :
    (acceptChallenge db cid ced now false true).2 = Except.error ApiError.internal ∧
    (∃ w2, (acceptChallenge db cid ced now false true).1.users ced = some w2 ∧
      w2.amount = w.amount ∧ w2.escrowBalance = w.escrowBalance) ∧
    (acceptChallenge db cid ced now false true).1.challenges cid = some c := by
  have hrun : acceptChallenge db cid ced now false true =
      (setUser (setUser db ced
          ⟨w.amount - c.betAmount, w.escrowBalance + c.betAmount,
            w.transactions ++ [⟨-c.betAmount, "escrow",
              "Challenge escrow: " ++ cid, w.amount, w.amount - c.betAmount,
              cid, "challenge_accepted"⟩]⟩) ced
        ⟨w.amount, w.escrowBalance,
          w.transactions ++ [⟨-c.betAmount, "escrow",
            "Challenge escrow: " ++ cid, w.amount, w.amount - c.betAmount,
            cid, "challenge_accepted"⟩]⟩,
       Except.error ApiError.internal) := by
    unfold acceptChallenge
    rw [hc]
    simp [hauth, hstat, hexp, hw, hfunds]
  refine ⟨by rw [hrun], ?_, ?_⟩
  · refine ⟨⟨w.amount, w.escrowBalance,
      w.transactions ++ [⟨-c.betAmount, "escrow", "Challenge escrow: " ++ cid,
        w.amount, w.amount - c.betAmount, cid, "challenge_accepted"⟩]⟩,
      ?_, rfl, rfl⟩
    rw [hrun]
    simp [setUser]
  · rw [hrun]
    simp [setUser]
    exact hc

/-- Witness for claim C2 at a concrete state: with the status write failing
and the rollback succeeding, accept surfaces the error while bob's balances
are back at their pre-debit values and the challenge is still pending. -/
theorem accept_rollback_restores_wallet_witness :
    (acceptChallenge dbAcceptRb "c1" "bob" 10 false true).2 =
      Except.error ApiError.internal ∧
    (∃ w2, (acceptChallenge dbAcceptRb "c1" "bob" 10 false true).1.users "bob" = some w2 ∧
      w2.amount = 80 ∧ w2.escrowBalance = 0) ∧
    (acceptChallenge dbAcceptRb "c1" "bob" 10 false true).1.challenges "c1" =
      some chPendingAcc := by
  exact accept_rollback_restores_wallet dbAcceptRb "c1" "bob" 10 chPendingAcc
    ⟨80, 0, []⟩ (by decide) (by decide) (by decide) (by decide) (by decide)
    (by decide)

/-- Applying the updates computed when both score slots end up non-null yields
the completed record with both scores and the winner. -/
theorem applyScoreUpdates_complete (c : Challenge) (uid : String)
    (score now a2 b2 : Int)
    (hch : (if c.challengerId = uid then some score else c.challengerScore) = some a2)
    (hcd : (if c.challengerId = uid then c.challengedScore else some score) = some b2) :
    (scoreUpdates c uid score now).status = some Status.completed ∧
    applyScoreUpdates c (scoreUpdates c uid score now) =
      { c with
        challengerScore := some a2
        challengedScore := some b2
        status := Status.completed
        completedAt := some now
        winnerId := some (computeWinner c a2 b2) } := by
  unfold scoreUpdates applyScoreUpdates
  by_cases hich : c.challengerId = uid
  · rw [if_pos hich] at hch hcd
    injection hch with ha
    subst ha
    rw [hcd]
    simp [hich]
  · rw [if_neg hich] at hch hcd
    injection hcd with hb
    subst hb
    rw [hch]
    simp [hich]

/-- Claim C3: on an accepted challenge with a valid matching session, when the
submission makes both score slots non-null (a submitted 0 counts as present),
the handler reports success and the stored record is completed with the
completion timestamp, both scores, and the winner: the strictly higher score
wins and equal scores give the tie sentinel. -/
theorem submitScore_completion_and_winner (db : DB) (cid uid tok : String)
    (score now a2 b2 : Int) (s : Session) (c : Challenge)
    (hs : db.sessions tok = some s)
    (hsu : s.userId = uid) (hsc : s.challengeId = cid)
    (hsexp : ¬ now > s.expiresAt)
    (hc : db.challenges cid = some c)
    (hpart : c.challengerId = uid ∨ c.challengedId = uid)
    (hstat : c.status = Status.accepted)
    (hch : (if c.challengerId = uid then some score else c.challengerScore) = some a2)
    (hcd : (if c.challengerId = uid then c.challengedScore else some score) = some b2) :
    (submitChallengeScore db cid uid tok score now).2 = Except.ok () ∧
    (submitChallengeScore db cid uid tok score now).1.challenges cid =
      some { c with
        challengerScore := some a2
        challengedScore := some b2
        status := Status.completed
        completedAt := some now
        winnerId := some (computeWinner c a2 b2) } := by
  have hnotun : ¬ (c.challengerId ≠ uid ∧ c.challengedId ≠ uid) := by
    rcases hpart with h | h
    · exact fun hcon => hcon.1 h
    · exact fun hcon => hcon.2 h
  obtain ⟨hust, hupd⟩ := applyScoreUpdates_complete c uid score now a2 b2 hch hcd
  unfold submitChallengeScore
  rw [hs, hc]
  simp [hsu, hsc, hsexp, hnotun, hstat, hust, hupd, setChallenge, removeSession]

/-- Witness for claim C3 at a concrete state: with the challenger's score 0
already stored, the challenged party submitting 0 completes the challenge
with both zero scores and the tie winner. -/
theorem submitScore_completion_and_winner_witness :
    (submitChallengeScore dbHalfZero "c1" "bob" "tok" 0 200).2 = Except.ok () ∧
    (submitChallengeScore dbHalfZero "c1" "bob" "tok" 0 200).1.challenges "c1" =
      some { chHalfZero with
        challengerScore := some 0
        challengedScore := some 0
        status := Status.completed
        completedAt := some 200
        winnerId := some "tie" } := by
  exact submitScore_completion_and_winner dbHalfZero "c1" "bob" "tok" 0 200 0 0
    sessHalfZero chHalfZero (by decide) (by decide) (by decide) (by decide)
    (by decide) (Or.inr (by decide)) (by decide) (by decide) (by decide)

/-- With no session stored under the token, submit-score fails with the
absent-session error and changes nothing. -/
theorem submit_absent_session (db : DB) (cid uid tok : String) (score now : Int)
    (hnone : db.sessions tok = none) :
    submitChallengeScore db cid uid tok score now =
      (db, Except.error ApiError.sessionNotFound) := by
  unfold submitChallengeScore
  rw [hnone]

/-- Whenever submit-score reports success, the session it consumed is gone
from the resulting state. -/
theorem submit_session_deleted_on_ok (db : DB) (cid uid tok : String)
    (score now : Int)
    (hok : (submitChallengeScore db cid uid tok score now).2 = Except.ok ()) :
    (submitChallengeScore db cid uid tok score now).1.sessions tok = none := by
  unfold submitChallengeScore at hok ⊢
  rcases hsw : db.sessions tok with _ | s
  · rw [hsw] at hok
    exact absurd hok (by simp)
  by_cases h1 : s.userId ≠ uid ∨ s.challengeId ≠ cid
  · simp only [hsw, if_pos h1] at hok
    exact absurd hok (by simp)
  by_cases h2 : now > s.expiresAt
  · simp only [hsw, if_neg h1, if_pos h2] at hok
    exact absurd hok (by simp)
  rcases hcw : db.challenges cid with _ | c
  · simp only [hsw, if_neg h1, if_neg h2, hcw] at hok
    exact absurd hok (by simp)
  by_cases h3 : c.challengerId ≠ uid ∧ c.challengedId ≠ uid
  · simp only [hsw, if_neg h1, if_neg h2, hcw, if_pos h3] at hok
    exact absurd hok (by simp)
  by_cases h4 : c.status ≠ Status.accepted
  · simp only [hsw, if_neg h1, if_neg h2, hcw, if_neg h3, if_pos h4] at hok
    exact absurd hok (by simp)
  · simp only [hsw, if_neg h1, if_neg h2, hcw, if_neg h3, if_neg h4]
    by_cases h5 : (scoreUpdates c uid score now).status = some Status.completed
    · simp [h5, removeSession]
    · simp [h5, removeSession]

/-- Claim C8: submit-score session validation fails with three pairwise
distinct errors for an absent token, a token bound to a different user or
challenge, and a token past its expiry (the thirty-minute TTL stamped by
startGameSession); and every successful submission deletes the session, so a
second use of the same token fails with the absent-token error. -/
theorem session_gate_correct (db : DB) (cid uid tok : String)
    (score now now2 : Int) :
    (db.sessions tok = none →
      submitChallengeScore db cid uid tok score now =
        (db, Except.error ApiError.sessionNotFound)) ∧
    (∀ s, db.sessions tok = some s → (s.userId ≠ uid ∨ s.challengeId ≠ cid) →
      submitChallengeScore db cid uid tok score now =
        (db, Except.error ApiError.sessionMismatch)) ∧
    (∀ s, db.sessions tok = some s → ¬ (s.userId ≠ uid ∨ s.challengeId ≠ cid) →
      now > s.expiresAt →
      submitChallengeScore db cid uid tok score now =
        (db, Except.error ApiError.sessionExpired)) ∧
    (ApiError.sessionNotFound ≠ ApiError.sessionMismatch ∧
     ApiError.sessionNotFound ≠ ApiError.sessionExpired ∧
     ApiError.sessionMismatch ≠ ApiError.sessionExpired) ∧
    ((submitChallengeScore db cid uid tok score now).2 = Except.ok () →
      (submitChallengeScore db cid uid tok score now).1.sessions tok = none ∧
      submitChallengeScore (submitChallengeScore db cid uid tok score now).1
          cid uid tok score now2 =
        ((submitChallengeScore db cid uid tok score now).1,
         Except.error ApiError.sessionNotFound)) ∧
    (∀ c2, ¬ cid = "" → db.challenges cid = some c2 →
      ¬ (c2.challengerId ≠ uid ∧ c2.challengedId ≠ uid) →
      c2.status = Status.accepted →
      (startGameSession db cid uid tok now).2 = Except.ok tok ∧
      (startGameSession db cid uid tok now).1.sessions tok =
        some ⟨cid, uid, now, now + 1800000⟩) := by
  refine ⟨?_, ?_, ?_, ⟨by decide, by decide, by decide⟩, ?_, ?_⟩
  · intro hnone
    exact submit_absent_session db cid uid tok score now hnone
  · intro s hs hmis
    unfold submitChallengeScore
    rw [hs]
    simp only [if_pos hmis]
  · intro s hs hmatch hexp
    unfold submitChallengeScore
    rw [hs]
    simp only [if_neg hmatch, if_pos hexp]
  · intro hok
    have hdel := submit_session_deleted_on_ok db cid uid tok score now hok
    exact ⟨hdel, submit_absent_session _ cid uid tok score now2 hdel⟩
  · intro c2 hcid hc2 hpart hstat
    unfold startGameSession
    rw [if_neg hcid, hc2]
    simp [hpart, hstat]

/-- Witness for claim C8 at a concrete state: the absent, mismatched and
expired session cases produce their three distinct errors, a successful
submission deletes the session so that its second use hits the absent-token
error, and a freshly started session carries the thirty-minute expiry. -/
theorem session_gate_correct_witness :
    submitChallengeScore dbHalfZero "c1" "bob" "zzz" 0 200 =
      (dbHalfZero, Except.error ApiError.sessionNotFound) ∧
    submitChallengeScore dbHalfZero "c1" "carol" "tok" 0 200 =
      (dbHalfZero, Except.error ApiError.sessionMismatch) ∧
    submitChallengeScore dbHalfZero "c1" "bob" "tok" 0 20000 =
      (dbHalfZero, Except.error ApiError.sessionExpired) ∧
    ((submitChallengeScore dbHalfZero "c1" "bob" "tok" 0 200).1.sessions "tok" = none ∧
      submitChallengeScore (submitChallengeScore dbHalfZero "c1" "bob" "tok" 0 200).1
          "c1" "bob" "tok" 0 300 =
        ((submitChallengeScore dbHalfZero "c1" "bob" "tok" 0 200).1,
         Except.error ApiError.sessionNotFound)) ∧
    (startGameSession dbHalfZero "c1" "bob" "newtok" 300).2 = Except.ok "newtok" ∧
    (startGameSession dbHalfZero "c1" "bob" "newtok" 300).1.sessions "newtok" =
      some ⟨"c1", "bob", 300, 1800300⟩ := by
  refine ⟨?_, ?_, ?_, ?_, ?_⟩
  · exact (session_gate_correct dbHalfZero "c1" "bob" "zzz" 0 200 300).1 (by decide)
  · exact (session_gate_correct dbHalfZero "c1" "carol" "tok" 0 200 300).2.1
      sessHalfZero (by decide) (Or.inl (by decide))
  · exact (session_gate_correct dbHalfZero "c1" "bob" "tok" 0 20000 300).2.2.1
      sessHalfZero (by decide) (by decide) (by decide)
  · exact (session_gate_correct dbHalfZero "c1" "bob" "tok" 0 200 300).2.2.2.2.1
      (by rfl)
  · exact (session_gate_correct dbHalfZero "c1" "bob" "newtok" 0 300 300).2.2.2.2.2
      chHalfZero (by decide) (by decide) (by decide) (by decide)
